import Mathlib

/-!
Verification of the session snapshot/restore core in `src/utils/RemoteAuth.js`.

The JavaScript core is shallowly embedded as follows.

* The local filesystem subtree rooted at the session path is an inductive
  tree `FsNode`: a file carries its byte content (`List Nat`, each entry a
  byte) together with a `readable` flag modelling whether `fs.stat` /
  `fs.readFile` succeed on it (the code swallows per-file read errors), and
  a directory carries its `fs.readdir` listing in order.
* `Buffer.toString('base64')` / `Buffer.from(_, 'base64')` on file contents
  are implemented for real (`b64Encode` / `b64Decode`, RFC 4648 alphabet,
  lenient decoding that skips non-alphabet characters as Node does).
* The outer storage pipeline (JSON.stringify / gzip / base64 of the whole
  envelope and of the compressed payload) is modelled symbolically: a value
  handed to the durable store is a `StoredBlob`, the decoded image of the
  blob.  Encoding constructs the structured form directly and decoding
  inspects it; a blob that base64-decodes but fails `JSON.parse` is the
  constructor `StoredBlob.notJson`, and a `data` field whose
  base64/gunzip/inner-JSON.parse pipeline fails is `InnerData.garbage`.
  This is faithful because those codecs are injective round-tripping
  transformations whose only observable behaviour in the source is
  "succeeds with the original structure" or "throws".
* Effects are made explicit: `preRestoreSession` returns, besides the
  `{restored, sessionPath}` object of the source, the list of files it
  wrote (`written`), whether it called `db.clearSessionData` (`cleared`)
  and the `restored/fileCount` counter it logs (`loggedRestoredCount`);
  `saveSession` returns its boolean result together with the argument
  passed to `db.saveSessionData`, if any (`setArg`).  Failure of
  `fs.writeFile`/`fs.mkdir` for one restored entry is an environment
  choice modelled by the `writeOk` predicate, failure of the gzip step in
  save by the `gzipOk` flag, and an exception thrown at the database fetch
  (or the preceding mkdir calls) in restore by the `getThrows` flag.
-/

/-! ## Constants (src/utils/RemoteAuth.js, lines 23-28) -/

/-- `MAX_TOTAL_SIZE = 15 * 1024 * 1024` — 15MB aggregate budget. -/
def MAX_TOTAL_SIZE : Nat := 15 * 1024 * 1024

/-- `MAX_FILE_SIZE = 5 * 1024 * 1024` — 5MB per-file budget. -/
def MAX_FILE_SIZE : Nat := 5 * 1024 * 1024

/-- The four lock-file names skipped by `collectDirFiles` (line 233). -/
def lockFileNames : List String := ["LOCK", "SingletonLock", "SingletonCookie", "SingletonSocket"]

/-- `ESSENTIAL_DIRS = ['IndexedDB', 'Local Storage']` (line 28). -/
def ESSENTIAL_DIRS : List String := ["IndexedDB", "Local Storage"]

/-! ## Filesystem model -/

/-- A node of the session directory tree.  A file carries its bytes and a
flag saying whether `fs.stat`/`fs.readFile` succeed on it; a directory
carries its ordered `readdir` listing. -/
inductive FsNode where
  | file (content : List Nat) (readable : Bool)
  | dir (entries : List (String × FsNode))

/-- The in-memory `files` object built by the collector and stored in the
snapshot payload: relative path ↦ base64-encoded content, in insertion
order (JS objects preserve string-key insertion order). -/
abbrev Files := List (String × String)

/-- Forward-slash path join of components, as `path.join`/`path.relative`
produce on the POSIX systems the code runs on. -/
def joinPath (comps : List String) : String := String.intercalate "/" comps

/-- `path.join(dataPath, accountId)` for the two-argument case. -/
def pathJoin (a b : String) : String := a ++ "/" ++ b

/-- First directory entry with the given name (`readdir` names are unique
on a real filesystem; lookup takes the first match). -/
def childNamed : List (String × FsNode) → String → Option FsNode
  | [], _ => none
  | e :: rest, name => if e.1 = name then some e.2 else childNamed rest name

/-- Resolve a relative path (list of components) against a node. -/
def lookupPath : FsNode → List String → Option FsNode
  | n, [] => some n
  | FsNode.dir es, name :: rest =>
    match childNamed es name with
    | some n => lookupPath n rest
    | none => none
  | FsNode.file _ _, _ :: _ => none

/-- `HasFile n p c` — under node `n`, following the (nonempty) component
path `p`, there is a readable regular file with byte content `c`.  Stated
with plain list membership so that it is meaningful even for degenerate
listings. -/
inductive HasFile : FsNode → List String → List Nat → Prop
  | base {es : List (String × FsNode)} {name : String} {c : List Nat} :
      (name, FsNode.file c true) ∈ es → HasFile (FsNode.dir es) [name] c
  | step {es : List (String × FsNode)} {d : String} {sub : List (String × FsNode)}
      {p : List String} {c : List Nat} :
      (d, FsNode.dir sub) ∈ es → HasFile (FsNode.dir sub) p c →
      HasFile (FsNode.dir es) (d :: p) c

/-! ## Base64 (Node `Buffer` encoding of file contents) -/

/-- The RFC 4648 base64 alphabet used by `Buffer.toString('base64')`. -/
def b64Chars : List Char :=
  "ABCDEFGHIJKLMNOPQRSTUVWXYZabcdefghijklmnopqrstuvwxyz0123456789+/".toList

/-- Character for a 6-bit value. -/
def b64Char (n : Nat) : Char := b64Chars.getD n 'A'

/-- 6-bit value of an alphabet character, `none` for characters outside the
alphabet (including the `=` padding), which Node's lenient decoder skips. -/
def b64Index (c : Char) : Option Nat := b64Chars.findIdx? (fun x => x = c)

/-- Base64-encode a byte list, three bytes to four characters, with `=`
padding exactly as `Buffer.toString('base64')` emits it. -/
def b64EncodeList : List Nat → List Char
  | [] => []
  | [b0] => [b64Char (b0 / 4), b64Char (b0 % 4 * 16), '=', '=']
  | [b0, b1] => [b64Char (b0 / 4), b64Char (b0 % 4 * 16 + b1 / 16), b64Char (b1 % 16 * 4), '=']
  | b0 :: b1 :: b2 :: rest =>
    b64Char (b0 / 4) :: b64Char (b0 % 4 * 16 + b1 / 16) ::
      b64Char (b1 % 16 * 4 + b2 / 64) :: b64Char (b2 % 64) :: b64EncodeList rest

/-- `content.toString('base64')`. -/
def b64Encode (bs : List Nat) : String := String.mk (b64EncodeList bs)

/-- Reassemble bytes from a stream of 6-bit values; a trailing group of two
or three values yields one or two bytes, a lone trailing value is dropped —
the behaviour of Node's decoder on unpadded tails. -/
def b64DecodeGroups : List Nat → List Nat
  | a :: b :: c :: d :: rest =>
    (a * 4 + b / 16) :: (b % 16 * 16 + c / 4) :: (c % 4 * 64 + d) :: b64DecodeGroups rest
  | [a, b] => [a * 4 + b / 16]
  | [a, b, c] => [a * 4 + b / 16, b % 16 * 16 + c / 4]
  | _ => []

/-- `Buffer.from(s, 'base64')`: lenient decode that ignores characters
outside the alphabet (padding included) and never throws. -/
def b64Decode (s : String) : List Nat :=
  b64DecodeGroups (s.toList.filterMap b64Index)

/-! ## JS object assignment -/

/-- `files[relPath] = v` on a JS object modelled as an ordered association
list: overwrite in place if the key exists, append otherwise. -/
def objSet (m : Files) (k v : String) : Files :=
  if m.any (fun e => e.1 = k) then m.map (fun e => if e.1 = k then (k, v) else e)
  else m ++ [(k, v)]

/-! ## Collector (`collectDirFiles`, lines 219-250, and
`collectEssentialFiles`, lines 195-217) -/

mutual

/-- Body of one iteration of the `for (const entry of entries)` loop in
`collectDirFiles`, after the budget check: recurse into directories;
for files skip lock names, then unreadable files (`fs.stat`/`readFile`
throwing, swallowed by the inner catch), then empty or oversized files;
otherwise record the base64 content under the path relative to the
session root and add the byte length to the running total. -/
def collectEntry : String → FsNode → List String → Files → Nat → Files × Nat
  | name, FsNode.dir es, pre, files, total => collectEntries es (pre ++ [name]) files total
  | name, FsNode.file c r, pre, files, total =>
    if name ∈ lockFileNames then (files, total)
    else if r = false then (files, total)
    else if c.length = 0 ∨ c.length > MAX_FILE_SIZE then (files, total)
    else (objSet files (joinPath (pre ++ [name])) (b64Encode c), total + c.length)

/-- The `for` loop of `collectDirFiles` over one directory listing: before
each entry the running total is checked against `MAX_TOTAL_SIZE` and the
loop `break`s once it is exceeded; `pre` is the path of the directory
relative to the session root (`path.relative(baseDir, fullPath)`). -/
def collectEntries : List (String × FsNode) → List String → Files → Nat → Files × Nat
  | [], _, files, total => (files, total)
  | (name, node) :: rest, pre, files, total =>
    if total > MAX_TOTAL_SIZE then (files, total)
    else
      let st := collectEntry name node pre files total
      collectEntries rest pre st.1 st.2

end

/-- One iteration of the `for (const essentialDir of ESSENTIAL_DIRS)` loop
in `collectEssentialFiles`: `fs.access` the directory (a missing path is
skipped; a path that is a regular file passes `access` but then makes the
`readdir` inside `collectDirFiles` throw, which its outer catch swallows),
then walk it with a fresh per-directory `stats = { totalSize: 0 }`, adding
the per-directory total to the outer running total. -/
def collectOneEssential (root : FsNode) (acc : Files × Nat) (d : String) : Files × Nat :=
  match lookupPath root ["Default", d] with
  | some (FsNode.dir es) =>
    let st := collectEntries es ["Default", d] acc.1 0
    (st.1, acc.2 + st.2)
  | _ => acc

/-- `collectEssentialFiles(sessionPath)`: walk `Default/IndexedDB` and
`Default/Local Storage` under the session root, returning the collected
`files` object and the summed total size. -/
def collectEssentialFiles (root : FsNode) : Files × Nat :=
  ESSENTIAL_DIRS.foldl (collectOneEssential root) ([], 0)

/-! ## Size/byte predicates on trees (used to state hypotheses) -/

mutual

/-- Every file under the node holds genuine bytes (each < 256). -/
def bytesOkN : FsNode → Bool
  | FsNode.file c _ => c.all (fun b => b < 256)
  | FsNode.dir es => bytesOkL es

/-- List version of `bytesOkN`. -/
def bytesOkL : List (String × FsNode) → Bool
  | [] => true
  | (_, n) :: rest => bytesOkN n && bytesOkL rest

end

mutual

/-- Every file under the node is at most `MAX_FILE_SIZE` bytes. -/
def filesWithinN : FsNode → Bool
  | FsNode.file c _ => decide (c.length ≤ MAX_FILE_SIZE)
  | FsNode.dir es => filesWithinL es

/-- List version of `filesWithinN`. -/
def filesWithinL : List (String × FsNode) → Bool
  | [] => true
  | (_, n) :: rest => filesWithinN n && filesWithinL rest

end

mutual

/-- Total byte size of all files under the node. -/
def treeSizeN : FsNode → Nat
  | FsNode.file c _ => c.length
  | FsNode.dir es => treeSizeL es

/-- List version of `treeSizeN`. -/
def treeSizeL : List (String × FsNode) → Nat
  | [] => 0
  | (_, n) :: rest => treeSizeN n + treeSizeL rest

end

/-- Size of one essential subtree (`0` if the directory is absent). -/
def essentialSubtreeSize (root : FsNode) (d : String) : Nat :=
  match lookupPath root ["Default", d] with
  | some n => treeSizeN n
  | none => 0

/-- Aggregate size of the files under the two essential subdirectories. -/
def essentialAggregate (root : FsNode) : Nat :=
  (ESSENTIAL_DIRS.map (essentialSubtreeSize root)).sum

/-- Per-file bound over the two essential subdirectories only. -/
def essentialFilesWithin (root : FsNode) : Bool :=
  ESSENTIAL_DIRS.all (fun d =>
    match lookupPath root ["Default", d] with
    | some n => filesWithinN n
    | none => true)

/-- Byte-validity over the two essential subdirectories only. -/
def essentialBytesOk (root : FsNode) : Bool :=
  ESSENTIAL_DIRS.all (fun d =>
    match lookupPath root ["Default", d] with
    | some n => bytesOkN n
    | none => true)

/-! ## The stored envelope, symbolically (see header comment) -/

/-- Decoded image of the `data` field of a stored envelope: either the
base64/gunzip/JSON.parse pipeline fails (`garbage`), or it yields an
object whose optional `files` member is an ordered map of relative path to
base64 content (`ts`/`id` metadata are never read by the restorer and are
omitted). -/
inductive InnerData where
  | garbage
  | obj (files : Option Files)

/-- Parsed outer envelope `{ type, data, saved }`.  `data = none` covers a
missing (or falsy) `data` field — the "unknown format" shape. -/
structure Envelope where
  type : Option String
  data : Option InnerData
  saved : Option String

/-- Decoded image of a blob handed to / received from the durable store:
valid base64 whose text fails `JSON.parse` (`notJson`), or a parsed
envelope. -/
inductive StoredBlob where
  | notJson
  | json (env : Envelope)

/-! ## Restorer (`preRestoreSession`, lines 33-105) -/

/-- Everything observable about one `preRestoreSession` run: the returned
`{restored, sessionPath}` object, whether `db.clearSessionData` was
called, the files written (relative path and decoded bytes), and the
`restored` counter the function logs. -/
structure RestoreResult where
  restored : Bool
  sessionPath : String
  cleared : Bool
  written : List (String × List Nat)
  loggedRestoredCount : Nat

/-- `preRestoreSession(accountId, dataPath)`.  `dbData` is the value the
database returns (`none` for a missing row), `writeOk` tells which
per-entry `mkdir`/`writeFile` calls succeed, and `getThrows` models an
exception thrown by the initial `fs.mkdir`/`db.getSessionData` calls,
caught by the outer catch.  The function never throws: it is total and
every branch returns a `RestoreResult`. -/
def preRestoreSession (accountId dataPath : String) (getThrows : Bool)
    (dbData : Option StoredBlob) (writeOk : String → Bool) : RestoreResult :=
  let sessionPath := pathJoin dataPath accountId
  if getThrows then
    { restored := false, sessionPath := sessionPath, cleared := false,
      written := [], loggedRestoredCount := 0 }
  else
    match dbData with
    | none =>
      { restored := false, sessionPath := sessionPath, cleared := false,
        written := [], loggedRestoredCount := 0 }
    | some StoredBlob.notJson =>
      { restored := false, sessionPath := sessionPath, cleared := true,
        written := [], loggedRestoredCount := 0 }
    | some (StoredBlob.json env) =>
      match env.data with
      | none =>
        { restored := false, sessionPath := sessionPath, cleared := false,
          written := [], loggedRestoredCount := 0 }
      | some InnerData.garbage =>
        { restored := false, sessionPath := sessionPath, cleared := true,
          written := [], loggedRestoredCount := 0 }
      | some (InnerData.obj fo) =>
        match fo with
        | none =>
          { restored := false, sessionPath := sessionPath, cleared := false,
            written := [], loggedRestoredCount := 0 }
        | some files =>
          if files.length = 0 then
            { restored := false, sessionPath := sessionPath, cleared := false,
              written := [], loggedRestoredCount := 0 }
          else
            let written := (files.filter (fun e => writeOk e.1)).map
              (fun e => (e.1, b64Decode e.2))
            { restored := true, sessionPath := sessionPath, cleared := false,
              written := written, loggedRestoredCount := written.length }

/-! ## Presence check (`hasPreRestoredSession`, lines 107-118) -/

/-- `hasPreRestoredSession(sessionPath)`: `existsSync` on
`Default/IndexedDB`, then `readdirSync` and non-emptiness.  A path that
exists but is a regular file makes `readdirSync` throw, which the catch
turns into `false`; a missing path yields `false`.  The function reads
only — its codomain is `Bool` and it has no effect component. -/
def hasPreRestoredSession (root : FsNode) : Bool :=
  match lookupPath root ["Default", "IndexedDB"] with
  | some (FsNode.dir es) => es.length > 0
  | some (FsNode.file _ _) => false
  | none => false

/-! ## Packager and `saveSession` (lines 252-298) -/

/-- The envelope `saveSession` serializes, compresses and stores (lines
276-286): `{ type: 'session_v4', data: base64(gzip(JSON({files, ts, id}))),
saved: ISO timestamp }`, the whole object base64-encoded — in the symbolic
codec, the structured form itself. -/
def packBlob (files : Files) (savedAt : String) : StoredBlob :=
  StoredBlob.json { type := some "session_v4", data := some (InnerData.obj (some files)),
                    saved := some savedAt }

/-- Result of one `saveSession` run: the returned boolean and the argument
passed to `db.saveSessionData`, if the call was reached. -/
structure SaveOutcome where
  ok : Bool
  setArg : Option StoredBlob

/-- `saveSession()`: check that `Default` exists (`fs.access`), collect the
essential files, fail on an empty collection, then gzip and store.
`gzipOk = false` models the gzip/serialization step throwing, which the
outer catch turns into `false` before the store call is reached.  The
store call itself is modelled as succeeding (store unavailability is a
collaborator failure outside this core). -/
def saveSession (root : FsNode) (savedAt : String) (gzipOk : Bool) : SaveOutcome :=
  match lookupPath root ["Default"] with
  | none => { ok := false, setArg := none }
  | some _ =>
    let files := (collectEssentialFiles root).1
    if files.length = 0 then { ok := false, setArg := none }
    else if gzipOk then { ok := true, setArg := some (packBlob files savedAt) }
    else { ok := false, setArg := none }

/-! ## Invariants used by the proofs -/

/-- Provenance of one collected entry with respect to the listing `es` of
the directory whose session-relative path is `pre`: the key is the join of
`pre` with a component path that, under `es`, reaches a readable file whose
content the value base64-encodes; the file's name is not a lock name and
its size is nonzero and within the per-file budget. -/
def GoodFrom (es : List (String × FsNode)) (pre : List String) (k v : String) : Prop :=
  ∃ dirs fname c, HasFile (FsNode.dir es) (dirs ++ [fname]) c ∧
    k = joinPath (pre ++ (dirs ++ [fname])) ∧ v = b64Encode c ∧
    fname ∉ lockFileNames ∧ c.length ≠ 0 ∧ c.length ≤ MAX_FILE_SIZE

/-- Induction motive for `collectEntry`: new entries are good, old ones kept. -/
def ProvEntry (name : String) (node : FsNode) (pre : List String) (files : Files)
    (total : Nat) : Prop :=
  ∀ k v, (k, v) ∈ (collectEntry name node pre files total).1 →
    (k, v) ∈ files ∨ GoodFrom [(name, node)] pre k v

/-- Induction motive for `collectEntries`: new entries are good, old ones kept. -/
def ProvEntries (es : List (String × FsNode)) (pre : List String) (files : Files)
    (total : Nat) : Prop :=
  ∀ k v, (k, v) ∈ (collectEntries es pre files total).1 →
    (k, v) ∈ files ∨ GoodFrom es pre k v

/-- Provenance of a fully collected snapshot entry with respect to the
session root. -/
def CollectedGood (root : FsNode) (k v : String) : Prop :=
  ∃ dirs fname c, HasFile root (dirs ++ [fname]) c ∧ k = joinPath (dirs ++ [fname]) ∧
    v = b64Encode c ∧ fname ∉ lockFileNames ∧ c.length ≠ 0 ∧ c.length ≤ MAX_FILE_SIZE

/-! ## Concrete trees used as witnesses/counterexamples -/

/-- The end-to-end scenario tree of the specification:
`Default/IndexedDB/000003.log` (10 bytes) and
`Default/Local Storage/leveldb/CURRENT` (4 bytes). -/
def exTree : FsNode :=
  FsNode.dir [("Default", FsNode.dir
    [("IndexedDB", FsNode.dir
      [("000003.log", FsNode.file [1, 2, 3, 4, 5, 6, 7, 8, 9, 10] true)]),
     ("Local Storage", FsNode.dir
      [("leveldb", FsNode.dir [("CURRENT", FsNode.file [67, 85, 82, 82] true)])])])]

/-- A 4MB file (all zero bytes), readable. -/
def bigFile : FsNode := FsNode.file (List.replicate 4194304 0) true

/-- A tree whose only essential subdirectory, `Default/IndexedDB`, holds
four 4MB files (16MB in total); `Default/Local Storage` is absent. -/
def cexTree : FsNode :=
  FsNode.dir [("Default", FsNode.dir [("IndexedDB", FsNode.dir
    [("f1", bigFile), ("f2", bigFile), ("f3", bigFile), ("f4", bigFile)])])]

/-- Induction motive for the budget bound on `collectEntry`: entered with a
total within the aggregate budget, one entry leaves the total at most one
per-file budget above the aggregate budget. -/
def BoundEntry (name : String) (node : FsNode) (pre : List String) (files : Files)
    (total : Nat) : Prop :=
  total ≤ MAX_TOTAL_SIZE → (collectEntry name node pre files total).2 ≤
    MAX_TOTAL_SIZE + MAX_FILE_SIZE

/-- Induction motive for the budget bound on `collectEntries`. -/
def BoundEntries (es : List (String × FsNode)) (pre : List String) (files : Files)
    (total : Nat) : Prop :=
  total ≤ MAX_TOTAL_SIZE + MAX_FILE_SIZE → (collectEntries es pre files total).2 ≤
    MAX_TOTAL_SIZE + MAX_FILE_SIZE

/-! ## Base64 round-trip -/

theorem b64Index_b64Char : ∀ n : Nat, n < 64 → b64Index (b64Char n) = some n := by decide

theorem b64Index_pad : b64Index '=' = none := by decide

theorem b64Decode_mk (l : List Char) :
    b64Decode (String.mk l) = b64DecodeGroups (l.filterMap b64Index) := rfl

theorem b64DecodeGroups_filterMap (bs : List Nat) (h : ∀ b ∈ bs, b < 256) :
    b64DecodeGroups ((b64EncodeList bs).filterMap b64Index) = bs := by
  induction bs using b64EncodeList.induct with
  | case1 => rfl
  | case2 b0 =>
    have hb0 : b0 < 256 := h b0 (by simp)
    simp only [b64EncodeList, List.filterMap_cons, List.filterMap_nil,
      b64Index_b64Char _ (by omega : b0 / 4 < 64),
      b64Index_b64Char _ (by omega : b0 % 4 * 16 < 64), b64Index_pad]
    simp only [b64DecodeGroups]
    have e1 : b0 / 4 * 4 + b0 % 4 * 16 / 16 = b0 := by omega
    rw [e1]
  | case3 b0 b1 =>
    have hb0 : b0 < 256 := h b0 (by simp)
    have hb1 : b1 < 256 := h b1 (by simp)
    simp only [b64EncodeList, List.filterMap_cons, List.filterMap_nil,
      b64Index_b64Char _ (by omega : b0 / 4 < 64),
      b64Index_b64Char _ (by omega : b0 % 4 * 16 + b1 / 16 < 64),
      b64Index_b64Char _ (by omega : b1 % 16 * 4 < 64), b64Index_pad]
    simp only [b64DecodeGroups]
    have e1 : b0 / 4 * 4 + (b0 % 4 * 16 + b1 / 16) / 16 = b0 := by omega
    have e2 : (b0 % 4 * 16 + b1 / 16) % 16 * 16 + b1 % 16 * 4 / 4 = b1 := by omega
    rw [e1, e2]
  | case4 b0 b1 b2 rest ih =>
    have hb0 : b0 < 256 := h b0 (by simp)
    have hb1 : b1 < 256 := h b1 (by simp)
    have hb2 : b2 < 256 := h b2 (by simp)
    have hrest : ∀ b ∈ rest, b < 256 := fun b hb => h b (by simp [hb])
    simp only [b64EncodeList, List.filterMap_cons,
      b64Index_b64Char _ (by omega : b0 / 4 < 64),
      b64Index_b64Char _ (by omega : b0 % 4 * 16 + b1 / 16 < 64),
      b64Index_b64Char _ (by omega : b1 % 16 * 4 + b2 / 64 < 64),
      b64Index_b64Char _ (by omega : b2 % 64 < 64)]
    simp only [b64DecodeGroups, ih hrest]
    have e1 : b0 / 4 * 4 + (b0 % 4 * 16 + b1 / 16) / 16 = b0 := by omega
    have e2 : (b0 % 4 * 16 + b1 / 16) % 16 * 16 + (b1 % 16 * 4 + b2 / 64) / 4 = b1 := by omega
    have e3 : (b1 % 16 * 4 + b2 / 64) % 4 * 64 + b2 % 64 = b2 := by omega
    rw [e1, e2, e3]

theorem b64_roundtrip (bs : List Nat) (h : ∀ b ∈ bs, b < 256) :
    b64Decode (b64Encode bs) = bs := by
  rw [b64Encode, b64Decode_mk, b64DecodeGroups_filterMap bs h]

/-! ## Helper lemmas about the filesystem model -/

theorem hasFile_cons {e : String × FsNode} {rest : List (String × FsNode)}
    {p : List String} {c : List Nat} (h : HasFile (FsNode.dir rest) p c) :
    HasFile (FsNode.dir (e :: rest)) p c := by
  cases h with
  | base hm => exact HasFile.base (List.mem_cons_of_mem _ hm)
  | step hm h2 => exact HasFile.step (List.mem_cons_of_mem _ hm) h2

theorem hasFile_single {e : String × FsNode} {rest : List (String × FsNode)}
    {p : List String} {c : List Nat} (h : HasFile (FsNode.dir [e]) p c) :
    HasFile (FsNode.dir (e :: rest)) p c := by
  cases h with
  | base hm =>
    rcases List.mem_singleton.mp hm with he
    exact HasFile.base (he ▸ List.mem_cons_self _ _)
  | step hm h2 =>
    rcases List.mem_singleton.mp hm with he
    exact HasFile.step (he ▸ List.mem_cons_self _ _) h2

theorem hasFile_of_child {es : List (String × FsNode)} {name : String} {n : FsNode}
    {q : List String} {c : List Nat} (hm : (name, n) ∈ es) (h : HasFile n q c) :
    HasFile (FsNode.dir es) (name :: q) c := by
  cases h with
  | base hm2 => exact HasFile.step hm (HasFile.base hm2)
  | step hm2 h2 => exact HasFile.step hm (HasFile.step hm2 h2)

theorem childNamed_mem : ∀ {es : List (String × FsNode)} {name : String} {n : FsNode},
    childNamed es name = some n → (name, n) ∈ es := by
  intro es
  induction es with
  | nil => intro name n h; simp [childNamed] at h
  | cons e rest ih =>
    intro name n h
    by_cases he : e.1 = name
    · rw [childNamed, if_pos he] at h
      injection h with h2
      have : (name, n) = e := by rw [← he, ← h2]
      rw [this]
      exact List.mem_cons_self _ _
    · rw [childNamed, if_neg he] at h
      exact List.mem_cons_of_mem _ (ih h)

theorem lookupPath_hasFile : ∀ (p : List String) (n m : FsNode) (q : List String) (c : List Nat),
    lookupPath n p = some m → HasFile m q c → HasFile n (p ++ q) c := by
  intro p
  induction p with
  | nil =>
    intro n m q c hl hf
    simp only [lookupPath, Option.some.injEq] at hl
    rw [← hl] at hf
    simpa using hf
  | cons name rest ih =>
    intro n m q c hl hf
    cases n with
    | file _ _ => simp [lookupPath] at hl
    | dir es =>
      simp only [lookupPath] at hl
      rcases hc : childNamed es name with _ | n'
      · rw [hc] at hl; simp at hl
      · rw [hc] at hl
        have hm := childNamed_mem hc
        exact hasFile_of_child hm (ih n' m q c hl hf)

theorem objSet_mem {m : Files} {k0 v0 k v : String}
    (h : (k, v) ∈ objSet m k0 v0) : (k, v) ∈ m ∨ (k = k0 ∧ v = v0) := by
  unfold objSet at h
  by_cases hc : m.any (fun e => e.1 = k0)
  · rw [if_pos hc] at h
    rcases List.mem_map.mp h with ⟨e, hme, he⟩
    by_cases hek : e.1 = k0
    · rw [if_pos hek] at he
      injection he with h1 h2
      exact Or.inr ⟨h1.symm, h2.symm⟩
    · rw [if_neg hek] at he
      exact Or.inl (he ▸ hme)
  · rw [if_neg hc] at h
    rcases List.mem_append.mp h with h1 | h2
    · exact Or.inl h1
    · right
      simpa using h2

/-! ## Provenance of collected entries -/

theorem provEntry_dir (name : String) (es : List (String × FsNode)) (pre : List String)
    (files : Files) (total : Nat) (ih : ProvEntries es (pre ++ [name]) files total) :
    ProvEntry name (FsNode.dir es) pre files total := by
  intro k v h
  rcases ih k v h with hm | ⟨dirs, fname, c, hf, hk, hv, hlock, hne, hle⟩
  · exact Or.inl hm
  · refine Or.inr ⟨name :: dirs, fname, c, ?_, ?_, hv, hlock, hne, hle⟩
    · exact hasFile_of_child (List.mem_cons_self _ _) hf
    · rw [hk]
      simp [List.append_assoc]

theorem provEntry_lock (name : String) (c : List Nat) (r : Bool) (pre : List String)
    (files : Files) (total : Nat) (hl : name ∈ lockFileNames) :
    ProvEntry name (FsNode.file c r) pre files total := by
  intro k v h
  simp only [collectEntry, if_pos hl] at h
  exact Or.inl h

theorem provEntry_unreadable (name : String) (c : List Nat) (pre : List String)
    (files : Files) (total : Nat) (hl : name ∉ lockFileNames) :
    ProvEntry name (FsNode.file c false) pre files total := by
  intro k v h
  simp only [collectEntry, if_neg hl, if_pos rfl] at h
  exact Or.inl h

theorem provEntry_size (name : String) (c : List Nat) (r : Bool) (pre : List String)
    (files : Files) (total : Nat) (hl : name ∉ lockFileNames) (hr : ¬ r = false)
    (hs : c.length = 0 ∨ c.length > MAX_FILE_SIZE) :
    ProvEntry name (FsNode.file c r) pre files total := by
  intro k v h
  simp only [collectEntry, if_neg hl, if_neg hr, if_pos hs] at h
  exact Or.inl h

theorem provEntry_add (name : String) (c : List Nat) (r : Bool) (pre : List String)
    (files : Files) (total : Nat) (hl : name ∉ lockFileNames) (hr : ¬ r = false)
    (hs : ¬ (c.length = 0 ∨ c.length > MAX_FILE_SIZE)) :
    ProvEntry name (FsNode.file c r) pre files total := by
  intro k v h
  have hrt : r = true := by
    cases r
    · exact absurd rfl hr
    · rfl
  simp only [collectEntry, if_neg hl, if_neg hr, if_neg hs] at h
  rcases objSet_mem h with hm | ⟨hk, hv⟩
  · exact Or.inl hm
  · refine Or.inr ⟨[], name, c, ?_, ?_, hv, hl, ?_, ?_⟩
    · rw [hrt]
      exact HasFile.base (List.mem_cons_self _ _)
    · simpa using hk
    · intro h0
      exact hs (Or.inl h0)
    · by_contra hgt
      exact hs (Or.inr (by omega))

theorem provEntries_nil (pre : List String) (files : Files) (total : Nat) :
    ProvEntries [] pre files total := by
  intro k v h
  exact Or.inl h

theorem provEntries_break (name : String) (node : FsNode) (rest : List (String × FsNode))
    (pre : List String) (files : Files) (total : Nat) (ht : total > MAX_TOTAL_SIZE) :
    ProvEntries ((name, node) :: rest) pre files total := by
  intro k v h
  simp only [collectEntries, if_pos ht] at h
  exact Or.inl h

theorem provEntries_cons (name : String) (node : FsNode) (rest : List (String × FsNode))
    (pre : List String) (files : Files) (total : Nat) (ht : ¬ total > MAX_TOTAL_SIZE)
    (ih1 : ProvEntry name node pre files total)
    (ih2 : ProvEntries rest pre (collectEntry name node pre files total).1
      (collectEntry name node pre files total).2) :
    ProvEntries ((name, node) :: rest) pre files total := by
  intro k v h
  simp only [collectEntries, if_neg ht] at h
  rcases ih2 k v h with hm | ⟨dirs, fname, c, hf, hk, hv, hlock, hne, hle⟩
  · rcases ih1 k v hm with hm2 | ⟨dirs, fname, c, hf, hk, hv, hlock, hne, hle⟩
    · exact Or.inl hm2
    · exact Or.inr ⟨dirs, fname, c, hasFile_single hf, hk, hv, hlock, hne, hle⟩
  · exact Or.inr ⟨dirs, fname, c, hasFile_cons hf, hk, hv, hlock, hne, hle⟩

theorem collectEntries_prov : ∀ (es : List (String × FsNode)) (pre : List String)
    (files : Files) (total : Nat), ProvEntries es pre files total :=
  collectEntries.induct ProvEntry ProvEntries provEntry_dir provEntry_lock
    provEntry_unreadable provEntry_size provEntry_add provEntries_nil
    provEntries_break provEntries_cons

theorem collectOneEssential_eq_dir {root : FsNode} {d : String} {es : List (String × FsNode)}
    (hl : lookupPath root ["Default", d] = some (FsNode.dir es)) (acc : Files × Nat) :
    collectOneEssential root acc d =
      ((collectEntries es ["Default", d] acc.1 0).1,
        acc.2 + (collectEntries es ["Default", d] acc.1 0).2) := by
  unfold collectOneEssential
  rw [hl]

theorem collectOneEssential_eq_none {root : FsNode} {d : String}
    (hl : lookupPath root ["Default", d] = none) (acc : Files × Nat) :
    collectOneEssential root acc d = acc := by
  unfold collectOneEssential
  rw [hl]

theorem collectOneEssential_eq_file {root : FsNode} {d : String} {c : List Nat} {r : Bool}
    (hl : lookupPath root ["Default", d] = some (FsNode.file c r)) (acc : Files × Nat) :
    collectOneEssential root acc d = acc := by
  unfold collectOneEssential
  rw [hl]

theorem collectOneEssential_prov (root : FsNode) (acc : Files × Nat) (d : String) :
    ∀ k v, (k, v) ∈ (collectOneEssential root acc d).1 →
      (k, v) ∈ acc.1 ∨ CollectedGood root k v := by
  intro k v h
  rcases hl : lookupPath root ["Default", d] with _ | n
  · rw [collectOneEssential_eq_none hl] at h
    exact Or.inl h
  · cases n with
    | file c r =>
      rw [collectOneEssential_eq_file hl] at h
      exact Or.inl h
    | dir es =>
      rw [collectOneEssential_eq_dir hl] at h
      rcases collectEntries_prov es ["Default", d] acc.1 0 k v h with hm |
        ⟨dirs, fname, c, hf, hk, hv, hlock, hne, hle⟩
      · exact Or.inl hm
      · refine Or.inr ⟨"Default" :: d :: dirs, fname, c, ?_, ?_, hv, hlock, hne, hle⟩
        · have h2 := lookupPath_hasFile ["Default", d] root (FsNode.dir es) (dirs ++ [fname]) c hl hf
          simpa using h2
        · rw [hk]
          simp

theorem collectEssentialFiles_eq (root : FsNode) :
    collectEssentialFiles root =
      collectOneEssential root (collectOneEssential root ([], 0) "IndexedDB") "Local Storage" :=
  rfl

theorem collect_prov (root : FsNode) : ∀ k v, (k, v) ∈ (collectEssentialFiles root).1 →
    CollectedGood root k v := by
  intro k v h
  rw [collectEssentialFiles_eq] at h
  rcases collectOneEssential_prov root _ "Local Storage" k v h with h2 | hg
  · rcases collectOneEssential_prov root ([], 0) "IndexedDB" k v h2 with h3 | hg
    · simp at h3
    · exact hg
  · exact hg

/-! ## Byte-validity propagation -/

theorem bytesOkL_mem : ∀ {es : List (String × FsNode)}, bytesOkL es = true →
    ∀ {name : String} {n : FsNode}, (name, n) ∈ es → bytesOkN n = true := by
  intro es
  induction es with
  | nil => intro _ name n hm; simp at hm
  | cons e rest ih =>
    intro h name n hm
    rw [show bytesOkL (e :: rest) = (bytesOkN e.2 && bytesOkL rest) from rfl,
      Bool.and_eq_true] at h
    rcases List.mem_cons.mp hm with he | ht
    · rw [← he] at h
      exact h.1
    · exact ih h.2 ht

theorem hasFile_bytes : ∀ {n : FsNode} {p : List String} {c : List Nat},
    HasFile n p c → bytesOkN n = true → ∀ b ∈ c, b < 256 := by
  intro n p c hf
  induction hf with
  | base hm =>
    intro hb b hbc
    have h2 := bytesOkL_mem (by simpa [bytesOkN] using hb) hm
    simp only [bytesOkN, List.all_eq_true, decide_eq_true_eq] at h2
    exact h2 b hbc
  | step hm hf2 ih =>
    intro hb
    exact ih (bytesOkL_mem (by simpa [bytesOkN] using hb) hm)

/-! ## Save/restore plumbing -/

theorem default_of_collected_nonempty {root : FsNode}
    (h : (collectEssentialFiles root).1 ≠ []) :
    ∃ m, lookupPath root ["Default"] = some m := by
  rcases hl : lookupPath root ["Default"] with _ | m
  · exfalso
    have h1 : ∀ d, lookupPath root ["Default", d] = none := by
      intro d
      cases root with
      | file _ _ => rfl
      | dir es =>
        simp only [lookupPath] at hl ⊢
        rcases hc : childNamed es "Default" with _ | m
        · rfl
        · rw [hc] at hl
          simp [lookupPath] at hl
    have h2 : collectEssentialFiles root = ([], 0) := by
      rw [collectEssentialFiles_eq, collectOneEssential_eq_none (h1 _),
        collectOneEssential_eq_none (h1 _)]
    rw [h2] at h
    simp at h
  · exact ⟨m, rfl⟩

theorem saveSession_eq_success {root : FsNode} {m : FsNode} {savedAt : String}
    (hm : lookupPath root ["Default"] = some m)
    (hne : (collectEssentialFiles root).1 ≠ []) :
    saveSession root savedAt true =
      { ok := true, setArg := some (packBlob (collectEssentialFiles root).1 savedAt) } := by
  unfold saveSession
  rw [hm]
  have hlen : ¬ (collectEssentialFiles root).1.length = 0 := by
    simpa [List.length_eq_zero] using hne
  simp [hlen]

theorem preRestore_written_all (acc dp : String) (files : Files) (savedAt : String)
    (hne : ¬ files.length = 0) :
    (preRestoreSession acc dp false (some (packBlob files savedAt)) (fun _ => true)).written
      = files.map (fun e => (e.1, b64Decode e.2)) := by
  simp [preRestoreSession, packBlob, hne, List.filter_true]

/-- Claim C1 (round-trip): for a session tree with genuine byte contents
whose files under the two essential subdirectories are each at most 5MB
and at most 15MB in aggregate, restoring the blob that `saveSession`
stores (feeding `saveSession`'s `db.saveSessionData` argument to
`preRestoreSession`, with every write succeeding) writes every collected
entry back with exactly its original byte content at exactly its original
path relative to the session root. -/
theorem c1_round_trip (root : FsNode) (accountId dataPath savedAt : String)
    (hbytes : bytesOkN root = true)
    (hwithin : essentialFilesWithin root = true)
    (hagg : essentialAggregate root ≤ MAX_TOTAL_SIZE) :
    ∀ k v, (k, v) ∈ (collectEssentialFiles root).1 →
      ∃ comps c, k = joinPath comps ∧ HasFile root comps c ∧
        (k, c) ∈ (preRestoreSession accountId dataPath false
          (saveSession root savedAt true).setArg (fun _ => true)).written := by
  intro k v h
  obtain ⟨dirs, fname, c, hf, hk, hv, hlock, hne, hle⟩ := collect_prov root k v h
  have hnonempty : (collectEssentialFiles root).1 ≠ [] := by
    intro h0
    rw [h0] at h
    simp at h
  obtain ⟨m, hm⟩ := default_of_collected_nonempty hnonempty
  have hlen : ¬ (collectEssentialFiles root).1.length = 0 := by
    simpa [List.length_eq_zero] using hnonempty
  rw [saveSession_eq_success hm hnonempty]
  refine ⟨dirs ++ [fname], c, hk, hf, ?_⟩
  rw [preRestore_written_all accountId dataPath _ savedAt hlen]
  have hc : b64Decode v = c := by
    rw [hv]
    exact b64_roundtrip c (hasFile_bytes hf hbytes)
  exact List.mem_map.mpr ⟨(k, v), h, by rw [hc]⟩

/-- Witness for C1 at the specification's end-to-end tree: the collected
`Default/IndexedDB/000003.log` entry is written back byte-identically. -/
theorem c1_round_trip_witness :
    ∃ comps c, "Default/IndexedDB/000003.log" = joinPath comps ∧ HasFile exTree comps c ∧
      ("Default/IndexedDB/000003.log", c) ∈ (preRestoreSession "acc1" "./wa-sessions-temp" false
        (saveSession exTree "2024-01-01T00:00:00Z" true).setArg (fun _ => true)).written :=
  c1_round_trip exTree "acc1" "./wa-sessions-temp" "2024-01-01T00:00:00Z"
    (by decide) (by decide) (by decide)
    "Default/IndexedDB/000003.log" (b64Encode [1, 2, 3, 4, 5, 6, 7, 8, 9, 10]) (by decide)

/-- Claim C6 (exclusion by construction): every entry of a collected
snapshot corresponds to a readable file in the tree whose name is none of
`LOCK`, `SingletonLock`, `SingletonCookie`, `SingletonSocket`, whose size
is nonzero, and whose size is within the 5MB per-file budget — so no
lock-named, empty, or oversized file ever appears in a snapshot. -/
theorem c6_exclusion (root : FsNode) : ∀ k v, (k, v) ∈ (collectEssentialFiles root).1 →
    ∃ dirs fname c, k = joinPath (dirs ++ [fname]) ∧ HasFile root (dirs ++ [fname]) c ∧
      v = b64Encode c ∧ fname ∉ lockFileNames ∧ c.length ≠ 0 ∧ c.length ≤ MAX_FILE_SIZE := by
  intro k v h
  obtain ⟨dirs, fname, c, hf, hk, hv, hlock, hne, hle⟩ := collect_prov root k v h
  exact ⟨dirs, fname, c, hk, hf, hv, hlock, hne, hle⟩

/-- Witness for C6 at the specification's end-to-end tree, on the
`Default/Local Storage/leveldb/CURRENT` entry. -/
theorem c6_exclusion_witness :
    ∃ dirs fname c, "Default/Local Storage/leveldb/CURRENT" = joinPath (dirs ++ [fname]) ∧
      HasFile exTree (dirs ++ [fname]) c ∧ b64Encode [67, 85, 82, 82] = b64Encode c ∧
      fname ∉ lockFileNames ∧ c.length ≠ 0 ∧ c.length ≤ MAX_FILE_SIZE :=
  c6_exclusion exTree "Default/Local Storage/leveldb/CURRENT"
    (b64Encode [67, 85, 82, 82]) (by decide)

/-! ## Budget bounds and the shape of the budget check -/

theorem collectEntries_nil (pre : List String) (files : Files) (total : Nat) :
    collectEntries [] pre files total = (files, total) := rfl

theorem collectEntries_break (es : List (String × FsNode)) (pre : List String)
    (files : Files) (total : Nat) (h : total > MAX_TOTAL_SIZE) :
    collectEntries es pre files total = (files, total) := by
  cases es with
  | nil => rfl
  | cons e rest =>
    cases e with
    | mk name node => simp only [collectEntries, if_pos h]

theorem collectEntries_cons_file_add (name : String) (c : List Nat)
    (rest : List (String × FsNode)) (pre : List String) (files : Files) (total : Nat)
    (h1 : ¬ total > MAX_TOTAL_SIZE) (h2 : name ∉ lockFileNames)
    (h3 : ¬ (c.length = 0 ∨ c.length > MAX_FILE_SIZE)) :
    collectEntries ((name, FsNode.file c true) :: rest) pre files total =
      collectEntries rest pre (objSet files (joinPath (pre ++ [name])) (b64Encode c))
        (total + c.length) := by
  simp only [collectEntries, collectEntry, if_neg h1, if_neg h2, if_neg h3]
  simp

theorem boundEntry_dir (name : String) (es : List (String × FsNode)) (pre : List String)
    (files : Files) (total : Nat) (ih : BoundEntries es (pre ++ [name]) files total) :
    BoundEntry name (FsNode.dir es) pre files total := by
  intro ht
  have := ih (by omega)
  simpa [collectEntry] using this

theorem boundEntry_lock (name : String) (c : List Nat) (r : Bool) (pre : List String)
    (files : Files) (total : Nat) (hl : name ∈ lockFileNames) :
    BoundEntry name (FsNode.file c r) pre files total := by
  intro ht
  simp only [collectEntry, if_pos hl]
  omega

theorem boundEntry_unreadable (name : String) (c : List Nat) (pre : List String)
    (files : Files) (total : Nat) (hl : name ∉ lockFileNames) :
    BoundEntry name (FsNode.file c false) pre files total := by
  intro ht
  simp [collectEntry, if_neg hl]
  omega

theorem boundEntry_size (name : String) (c : List Nat) (r : Bool) (pre : List String)
    (files : Files) (total : Nat) (hl : name ∉ lockFileNames) (hr : ¬ r = false)
    (hs : c.length = 0 ∨ c.length > MAX_FILE_SIZE) :
    BoundEntry name (FsNode.file c r) pre files total := by
  intro ht
  simp only [collectEntry, if_neg hl, if_neg hr, if_pos hs]
  omega

theorem boundEntry_add (name : String) (c : List Nat) (r : Bool) (pre : List String)
    (files : Files) (total : Nat) (hl : name ∉ lockFileNames) (hr : ¬ r = false)
    (hs : ¬ (c.length = 0 ∨ c.length > MAX_FILE_SIZE)) :
    BoundEntry name (FsNode.file c r) pre files total := by
  intro ht
  simp only [collectEntry, if_neg hl, if_neg hr, if_neg hs]
  have : c.length ≤ MAX_FILE_SIZE := by
    by_contra hgt
    exact hs (Or.inr (by omega))
  omega

theorem boundEntries_nil (pre : List String) (files : Files) (total : Nat) :
    BoundEntries [] pre files total := by
  intro ht
  simpa [collectEntries_nil] using ht

theorem boundEntries_break (name : String) (node : FsNode) (rest : List (String × FsNode))
    (pre : List String) (files : Files) (total : Nat) (ht : total > MAX_TOTAL_SIZE) :
    BoundEntries ((name, node) :: rest) pre files total := by
  intro hb
  simpa [collectEntries_break _ _ _ _ ht] using hb

theorem boundEntries_cons (name : String) (node : FsNode) (rest : List (String × FsNode))
    (pre : List String) (files : Files) (total : Nat) (ht : ¬ total > MAX_TOTAL_SIZE)
    (ih1 : BoundEntry name node pre files total)
    (ih2 : BoundEntries rest pre (collectEntry name node pre files total).1
      (collectEntry name node pre files total).2) :
    BoundEntries ((name, node) :: rest) pre files total := by
  intro _
  simp only [collectEntries, if_neg ht]
  exact ih2 (ih1 (by omega))

theorem collectEntries_bound : ∀ (es : List (String × FsNode)) (pre : List String)
    (files : Files) (total : Nat), BoundEntries es pre files total :=
  collectEntries.induct BoundEntry BoundEntries boundEntry_dir boundEntry_lock
    boundEntry_unreadable boundEntry_size boundEntry_add boundEntries_nil
    boundEntries_break boundEntries_cons

theorem collectOneEssential_bound (root : FsNode) (acc : Files × Nat) (d : String) :
    (collectOneEssential root acc d).2 ≤ acc.2 + (MAX_TOTAL_SIZE + MAX_FILE_SIZE) := by
  rcases hl : lookupPath root ["Default", d] with _ | n
  · rw [collectOneEssential_eq_none hl]
    omega
  · cases n with
    | file c r =>
      rw [collectOneEssential_eq_file hl]
      omega
    | dir es =>
      rw [collectOneEssential_eq_dir hl]
      have := collectEntries_bound es ["Default", d] acc.1 0 (by norm_num)
      simp only
      omega

/-- Claim C3 (amended): once the running total of the walk exceeds the
15MB budget, the current directory enumeration stops and already-accepted
entries remain; the sibling essential subdirectory is still attempted
afterwards — but with a fresh per-directory budget (`collectEssentialFiles`
passes a fresh `stats = { totalSize: 0 }` for each essential directory), so
each essential subdirectory can contribute up to the 15MB budget plus one
in-flight file of at most 5MB, and the aggregate is bounded by
2 × (15MB + 5MB) = 40MB rather than by 15MB plus one extra directory's
early files. -/
theorem c3_budget_amended (root : FsNode) :
    (∀ (es : List (String × FsNode)) (pre : List String) (files : Files) (total : Nat),
      total > MAX_TOTAL_SIZE → collectEntries es pre files total = (files, total)) ∧
    collectEssentialFiles root =
      collectOneEssential root (collectOneEssential root ([], 0) "IndexedDB") "Local Storage" ∧
    (∀ (acc : Files × Nat) (d : String),
      (collectOneEssential root acc d).2 ≤ acc.2 + (MAX_TOTAL_SIZE + MAX_FILE_SIZE)) ∧
    (collectEssentialFiles root).2 ≤ 2 * (MAX_TOTAL_SIZE + MAX_FILE_SIZE) := by
  refine ⟨collectEntries_break, collectEssentialFiles_eq root,
    collectOneEssential_bound root, ?_⟩
  have h1 := collectOneEssential_bound root ([], 0) "IndexedDB"
  have h2 := collectOneEssential_bound root
    (collectOneEssential root ([], 0) "IndexedDB") "Local Storage"
  rw [collectEssentialFiles_eq root]
  omega

/-- Witness for C3 (amended) at concrete inputs: a walk entered with a
total already over budget leaves the state unchanged, and the end-to-end
example tree's collection stays within the amended bound. -/
theorem c3_budget_amended_witness :
    collectEntries [("a", FsNode.file [1] true)] ["Default", "IndexedDB"] [] 20000000 =
      ([], 20000000) ∧
    (collectEssentialFiles exTree).2 ≤ 2 * (MAX_TOTAL_SIZE + MAX_FILE_SIZE) :=
  ⟨(c3_budget_amended exTree).1 _ _ _ _ (by norm_num [MAX_TOTAL_SIZE]),
    (c3_budget_amended exTree).2.2.2⟩

/-- Counterexample to claim C3 as stated: in a tree whose only essential
subdirectory `Default/IndexedDB` holds four 4MB files (the sibling
`Default/Local Storage` does not exist at all), the collected total is
16MB — the nominal 15MB cap is exceeded even though there is no "one more
subdirectory" contributing early files: the excess comes from the one
in-flight file of the same directory. -/
theorem c3_budget_counterexample :
    (collectEssentialFiles cexTree).2 = 16777216 ∧
    (collectEssentialFiles cexTree).2 > MAX_TOTAL_SIZE ∧
    lookupPath cexTree ["Default", "Local Storage"] = none := by
  have hIDB : lookupPath cexTree ["Default", "IndexedDB"] =
      some (FsNode.dir [("f1", bigFile), ("f2", bigFile), ("f3", bigFile), ("f4", bigFile)]) :=
    rfl
  have hLS : lookupPath cexTree ["Default", "Local Storage"] = none := rfl
  have htot : (collectEssentialFiles cexTree).2 = 16777216 := by
    rw [collectEssentialFiles_eq, collectOneEssential_eq_none hLS,
      collectOneEssential_eq_dir hIDB, bigFile,
      collectEntries_cons_file_add _ _ _ _ _ _
        (by norm_num [List.length_replicate, MAX_TOTAL_SIZE]) (by decide)
        (by norm_num [List.length_replicate, MAX_FILE_SIZE]),
      collectEntries_cons_file_add _ _ _ _ _ _
        (by norm_num [List.length_replicate, MAX_TOTAL_SIZE]) (by decide)
        (by norm_num [List.length_replicate, MAX_FILE_SIZE]),
      collectEntries_cons_file_add _ _ _ _ _ _
        (by norm_num [List.length_replicate, MAX_TOTAL_SIZE]) (by decide)
        (by norm_num [List.length_replicate, MAX_FILE_SIZE]),
      collectEntries_cons_file_add _ _ _ _ _ _
        (by norm_num [List.length_replicate, MAX_TOTAL_SIZE]) (by decide)
        (by norm_num [List.length_replicate, MAX_FILE_SIZE]),
      collectEntries_nil, List.length_replicate]
    rfl
  refine ⟨htot, ?_, hLS⟩
  rw [htot]
  norm_num [MAX_TOTAL_SIZE]

/-! ## Claims about the restorer, presence check and saver -/

/-- Claim C2 (clear-iff): with the fetch succeeding, `preRestoreSession`
calls `db.clearSessionData` exactly when the blob base64-decodes to text
that fails `JSON.parse`, or when the envelope's `data` field fails its
base64/gunzip/inner-parse pipeline; in both cases it reports not
restored.  An envelope without a `data` field reports not restored
without clearing. -/
theorem c2_clear_iff (accountId dataPath : String) (writeOk : String → Bool)
    (dbData : Option StoredBlob) :
    ((preRestoreSession accountId dataPath false dbData writeOk).cleared = true ↔
      (dbData = some StoredBlob.notJson ∨
        ∃ t s, dbData = some (StoredBlob.json ⟨t, some InnerData.garbage, s⟩))) ∧
    ((dbData = some StoredBlob.notJson ∨
        ∃ t s, dbData = some (StoredBlob.json ⟨t, some InnerData.garbage, s⟩)) →
      (preRestoreSession accountId dataPath false dbData writeOk).restored = false) ∧
    (∀ t s, (preRestoreSession accountId dataPath false
        (some (StoredBlob.json ⟨t, none, s⟩)) writeOk).restored = false ∧
      (preRestoreSession accountId dataPath false
        (some (StoredBlob.json ⟨t, none, s⟩)) writeOk).cleared = false) := by
  refine ⟨?_, ?_, ?_⟩
  · rcases dbData with _ | b
    · simp [preRestoreSession]
    · cases b with
      | notJson => simp [preRestoreSession]
      | json env =>
        rcases env with ⟨t, d, s⟩
        rcases d with _ | d
        · simp [preRestoreSession]
        · cases d with
          | garbage => simp [preRestoreSession]
          | obj fo =>
            rcases fo with _ | files
            · simp [preRestoreSession]
            · by_cases hlen : files.length = 0
              · simp [preRestoreSession, hlen]
              · simp [preRestoreSession, hlen]
  · rintro (h | ⟨t, s, h⟩)
    · rw [h]; simp [preRestoreSession]
    · rw [h]; simp [preRestoreSession]
  · intro t s
    exact ⟨by simp [preRestoreSession], by simp [preRestoreSession]⟩

/-- Witness for C2 at a concrete corrupted blob. -/
theorem c2_clear_iff_witness :
    (preRestoreSession "acc1" "./wa-sessions-temp" false (some StoredBlob.notJson)
      (fun _ => true)).restored = false :=
  (c2_clear_iff "acc1" "./wa-sessions-temp" (fun _ => true)
    (some StoredBlob.notJson)).2.1 (Or.inl rfl)

/-- Claim C4 (unknown-version tolerance): the envelope's `type` tag never
affects the outcome of a restore (the dispatch reads only the `data`
field), and an envelope whose tag differs from `"session_v4"` but whose
`data` decodes to an object with a non-empty `files` map restores
successfully. -/
theorem c4_type_tag_ignored (accountId dataPath : String) (writeOk : String → Bool) :
    (∀ (t1 t2 : Option String) (d : Option InnerData) (s : Option String) (getThrows : Bool),
      preRestoreSession accountId dataPath getThrows
          (some (StoredBlob.json ⟨t1, d, s⟩)) writeOk =
        preRestoreSession accountId dataPath getThrows
          (some (StoredBlob.json ⟨t2, d, s⟩)) writeOk) ∧
    (∀ (t : Option String) (s : Option String) (files : Files),
      t ≠ some "session_v4" → files ≠ [] →
      (preRestoreSession accountId dataPath false
        (some (StoredBlob.json ⟨t, some (InnerData.obj (some files)), s⟩))
        writeOk).restored = true) := by
  constructor
  · intro t1 t2 d s getThrows
    rcases d with _ | d
    · rfl
    · cases d with
      | garbage => rfl
      | obj fo =>
        rcases fo with _ | files
        · rfl
        · rfl
  · intro t s files _ hne
    have hlen : ¬ files.length = 0 := by
      simpa [List.length_eq_zero] using hne
    simp [preRestoreSession, hlen]

/-- Witness for C4 at a concrete unknown version tag. -/
theorem c4_type_tag_ignored_witness :
    (preRestoreSession "acc1" "./wa-sessions-temp" false
      (some (StoredBlob.json ⟨some "session_v99", some (InnerData.obj (some [("a", "AA==")])),
        some "2024-01-01T00:00:00Z"⟩)) (fun _ => true)).restored = true :=
  (c4_type_tag_ignored "acc1" "./wa-sessions-temp" (fun _ => true)).2
    (some "session_v99") (some "2024-01-01T00:00:00Z") [("a", "AA==")]
    (by decide) (by decide)

/-- Claim C5 (restore result shape): with a non-empty decoded `files` map,
the restore reports success whatever subset of the per-entry writes fails;
the files actually written are exactly the entries whose writes succeed,
and the logged restored-count equals their number. -/
theorem c5_write_failures (accountId dataPath : String) (writeOk : String → Bool)
    (t s : Option String) (files : Files) (hne : files ≠ []) :
    (preRestoreSession accountId dataPath false
        (some (StoredBlob.json ⟨t, some (InnerData.obj (some files)), s⟩))
        writeOk).restored = true ∧
    (preRestoreSession accountId dataPath false
        (some (StoredBlob.json ⟨t, some (InnerData.obj (some files)), s⟩))
        writeOk).written =
      (files.filter (fun e => writeOk e.1)).map (fun e => (e.1, b64Decode e.2)) ∧
    (preRestoreSession accountId dataPath false
        (some (StoredBlob.json ⟨t, some (InnerData.obj (some files)), s⟩))
        writeOk).loggedRestoredCount =
      (preRestoreSession accountId dataPath false
        (some (StoredBlob.json ⟨t, some (InnerData.obj (some files)), s⟩))
        writeOk).written.length := by
  have hlen : ¬ files.length = 0 := by
    simpa [List.length_eq_zero] using hne
  refine ⟨by simp [preRestoreSession, hlen], by simp [preRestoreSession, hlen],
    by simp [preRestoreSession, hlen]⟩

/-- Witness for C5: two entries, one write fails — success is still
reported and the written list has exactly the surviving entry. -/
theorem c5_write_failures_witness :
    (preRestoreSession "acc1" "./wa-sessions-temp" false
        (some (StoredBlob.json ⟨some "session_v4",
          some (InnerData.obj (some [("a", "AA=="), ("b", "AQ==")])), none⟩))
        (fun k => k = "a")).restored = true ∧
    (preRestoreSession "acc1" "./wa-sessions-temp" false
        (some (StoredBlob.json ⟨some "session_v4",
          some (InnerData.obj (some [("a", "AA=="), ("b", "AQ==")])), none⟩))
        (fun k => k = "a")).written =
      ([("a", "AA=="), ("b", "AQ==")].filter (fun e => e.1 = "a")).map
        (fun e => (e.1, b64Decode e.2)) ∧
    (preRestoreSession "acc1" "./wa-sessions-temp" false
        (some (StoredBlob.json ⟨some "session_v4",
          some (InnerData.obj (some [("a", "AA=="), ("b", "AQ==")])), none⟩))
        (fun k => k = "a")).loggedRestoredCount =
      (preRestoreSession "acc1" "./wa-sessions-temp" false
        (some (StoredBlob.json ⟨some "session_v4",
          some (InnerData.obj (some [("a", "AA=="), ("b", "AQ==")])), none⟩))
        (fun k => k = "a")).written.length :=
  c5_write_failures "acc1" "./wa-sessions-temp" (fun k => k = "a")
    (some "session_v4") none [("a", "AA=="), ("b", "AQ==")] (by decide)

/-- Claim C7 (empty-payload handling): a decoded payload whose `files` map
is absent or empty reports not restored and writes nothing; symmetrically
a collection with zero entries makes `saveSession` return `false`. -/
theorem c7_empty (accountId dataPath savedAt : String) (writeOk : String → Bool)
    (t s : Option String) :
    ((preRestoreSession accountId dataPath false
        (some (StoredBlob.json ⟨t, some (InnerData.obj none), s⟩)) writeOk).restored = false ∧
      (preRestoreSession accountId dataPath false
        (some (StoredBlob.json ⟨t, some (InnerData.obj none), s⟩)) writeOk).written = []) ∧
    ((preRestoreSession accountId dataPath false
        (some (StoredBlob.json ⟨t, some (InnerData.obj (some [])), s⟩)) writeOk).restored = false ∧
      (preRestoreSession accountId dataPath false
        (some (StoredBlob.json ⟨t, some (InnerData.obj (some [])), s⟩)) writeOk).written = []) ∧
    (∀ (root : FsNode) (gzipOk : Bool), (collectEssentialFiles root).1 = [] →
      (saveSession root savedAt gzipOk).ok = false) := by
  refine ⟨⟨by simp [preRestoreSession], by simp [preRestoreSession]⟩,
    ⟨by simp [preRestoreSession], by simp [preRestoreSession]⟩, ?_⟩
  intro root gzipOk h
  rcases hl : lookupPath root ["Default"] with _ | m
  · simp [saveSession, hl]
  · simp [saveSession, hl, h]

/-- Witness for C7 at an empty session tree. -/
theorem c7_empty_witness : (saveSession (FsNode.dir []) "2024-01-01T00:00:00Z" true).ok = false :=
  (c7_empty "acc1" "./wa-sessions-temp" "2024-01-01T00:00:00Z" (fun _ => true)
    none none).2.2 (FsNode.dir []) true (by decide)

/-- Claim C8 (presence check): `hasPreRestoredSession` returns `true`
exactly when `Default/IndexedDB` resolves to a directory whose listing is
non-empty; a missing path, or a path that is a regular file (making
`readdirSync` throw), yields `false`.  The function is read-only by
construction — its type is `FsNode → Bool`. -/
theorem c8_presence (root : FsNode) :
    hasPreRestoredSession root = true ↔
      ∃ es, lookupPath root ["Default", "IndexedDB"] = some (FsNode.dir es) ∧ es ≠ [] := by
  unfold hasPreRestoredSession
  rcases hl : lookupPath root ["Default", "IndexedDB"] with _ | n
  · simp
  · cases n with
    | file c r => simp
    | dir es =>
      simp only [decide_eq_true_eq, Option.some.injEq]
      constructor
      · intro h
        refine ⟨es, rfl, ?_⟩
        intro h0
        rw [h0] at h
        simp at h
      · rintro ⟨es2, he, hne⟩
        have : es2 = es := by
          injection he with h2
          cases h2
          rfl
        rw [this] at hne
        have : es ≠ [] := hne
        have hlen : 0 < es.length := List.length_pos.mpr this
        simpa using hlen

/-- Claim C9 (totality of restore): `preRestoreSession` is a total
function — every input, including a throwing fetch, yields a result
object; its `sessionPath` field always equals `path.join(dataPath,
accountId)`, and `restored = true` only on the full success path (fetch
succeeded and the blob decoded to an envelope with a non-empty `files`
map), so every internal error reports `restored = false`. -/
theorem c9_totality (accountId dataPath : String) (getThrows : Bool)
    (dbData : Option StoredBlob) (writeOk : String → Bool) :
    (preRestoreSession accountId dataPath getThrows dbData writeOk).sessionPath =
      pathJoin dataPath accountId ∧
    ((preRestoreSession accountId dataPath getThrows dbData writeOk).restored = true →
      getThrows = false ∧ ∃ t s files, files ≠ [] ∧
        dbData = some (StoredBlob.json ⟨t, some (InnerData.obj (some files)), s⟩)) := by
  cases getThrows
  · rcases dbData with _ | b
    · exact ⟨rfl, by simp [preRestoreSession]⟩
    · cases b with
      | notJson => exact ⟨rfl, by simp [preRestoreSession]⟩
      | json env =>
        rcases env with ⟨t, d, s⟩
        rcases d with _ | d
        · exact ⟨rfl, by simp [preRestoreSession]⟩
        · cases d with
          | garbage => exact ⟨rfl, by simp [preRestoreSession]⟩
          | obj fo =>
            rcases fo with _ | files
            · exact ⟨rfl, by simp [preRestoreSession]⟩
            · by_cases hlen : files.length = 0
              · exact ⟨by simp [preRestoreSession, hlen], by simp [preRestoreSession, hlen]⟩
              · refine ⟨by simp [preRestoreSession, hlen], fun _ => ⟨rfl, t, s, files, ?_, rfl⟩⟩
                simpa [List.length_eq_zero] using hlen
  · exact ⟨rfl, by simp [preRestoreSession]⟩

/-- Witness for C9 at concrete inputs (a throwing fetch). -/
theorem c9_totality_witness :
    (preRestoreSession "acc1" "./wa-sessions-temp" true none (fun _ => true)).sessionPath =
      pathJoin "./wa-sessions-temp" "acc1" :=
  (c9_totality "acc1" "./wa-sessions-temp" true none (fun _ => true)).1

/-- Claim C10 (store unchanged on failed save): when the `Default`
directory is absent, or zero files are collected, or a step before the
store call throws (the gzip/serialize step), `saveSession` returns `false`
and never reaches `db.saveSessionData` — the stored envelope is left
unchanged. -/
theorem c10_no_set_on_failure (root : FsNode) (savedAt : String) (gzipOk : Bool)
    (h : lookupPath root ["Default"] = none ∨ (collectEssentialFiles root).1 = [] ∨
      gzipOk = false) :
    (saveSession root savedAt gzipOk).ok = false ∧
    (saveSession root savedAt gzipOk).setArg = none := by
  rcases hl : lookupPath root ["Default"] with _ | m
  · constructor
    · simp [saveSession, hl]
    · simp [saveSession, hl]
  · rcases h with h | h | h
    · rw [hl] at h
      simp at h
    · constructor
      · simp [saveSession, hl, h]
      · simp [saveSession, hl, h]
    · by_cases hlen : (collectEssentialFiles root).1.length = 0
      · constructor
        · simp [saveSession, hl, hlen]
        · simp [saveSession, hl, hlen]
      · constructor
        · simp [saveSession, hl, hlen, h]
        · simp [saveSession, hl, hlen, h]

/-- Witness for C10 at a tree without a `Default` directory. -/
theorem c10_no_set_on_failure_witness :
    (saveSession (FsNode.dir [("Other", FsNode.dir [])]) "2024-01-01T00:00:00Z" true).ok = false ∧
    (saveSession (FsNode.dir [("Other", FsNode.dir [])]) "2024-01-01T00:00:00Z" true).setArg =
      none :=
  c10_no_set_on_failure (FsNode.dir [("Other", FsNode.dir [])]) "2024-01-01T00:00:00Z" true
    (Or.inl rfl)
